import Mathlib

/-!
Verification development for the embedded script-execution subsystem of the
comics repository (rust/src): the JS runtime invocation contract
(`call_function_json`), the module manager (`load_module`, `register_module`),
the scoped storage binding, the image cache lookup, the HTTP bridge binding,
metadata extraction, and the crypto decode bindings.

The Rust source is shallowly embedded: database tables become functions from
primary-key strings to optional records, the in-memory instance registry
becomes an association list, timestamps become integers, and the QuickJS
engine value space becomes an inductive `Json` type.  Effectful operations
are explicit state-passing functions.
-/

namespace Comics

/-! ## JSON value model

Models the QuickJS value space as observed through `JSON.parse` /
`JSON.stringify` in `js_engine/runtime.rs`.  A mutual inductive is used so
that serialization is plain structural recursion. -/

mutual

inductive Json where
  | null : Json
  | bool (b : Bool) : Json
  | num (n : Int) : Json
  | str (s : String) : Json
  | arr (a : JsonArr) : Json
  | obj (o : JsonObj) : Json

inductive JsonArr where
  | nil : JsonArr
  | cons (hd : Json) (tl : JsonArr) : JsonArr

inductive JsonObj where
  | nil : JsonObj
  | cons (key : String) (val : Json) (tl : JsonObj) : JsonObj

end

/-- Hex digit character for code points below 0x10 (used in escape sequences). -/
def hexDigitChar (n : Nat) : Char :=
  if n < 10 then Char.ofNat (48 + n) else Char.ofNat (87 + (n - 10))

/-- Escape a single character the way `JSON.stringify` escapes string
contents. -/
def escapeChar (c : Char) : String :=
  if c = Char.ofNat 34 then "\\\""
  else if c = Char.ofNat 92 then "\\\\"
  else if c = Char.ofNat 10 then "\\n"
  else if c = Char.ofNat 13 then "\\r"
  else if c = Char.ofNat 9 then "\\t"
  else if c = Char.ofNat 8 then "\\b"
  else if c = Char.ofNat 12 then "\\f"
  else if c.toNat < 32 then
    "\\u00" ++ String.mk [hexDigitChar (c.toNat / 16), hexDigitChar (c.toNat % 16)]
  else String.singleton c

/-- Escape every character of a string for JSON output. -/
def escapeChars (cs : List Char) : String :=
  match cs with
  | [] => ""
  | c :: rest => escapeChar c ++ escapeChars rest

mutual

/-- Serialization of a JSON value, matching the output shape of
`JSON.stringify` in QuickJS: keys in insertion order, integers printed
without a decimal point, booleans as `true` and `false`. -/
def stringify : Json → String
  | .null => "null"
  | .bool true => "true"
  | .bool false => "false"
  | .num n => toString n
  | .str s => "\"" ++ escapeChars s.data ++ "\""
  | .arr a => "[" ++ stringifyArr a ++ "]"
  | .obj o => "\x7b" ++ stringifyObj o ++ "\x7d"

/-- Comma-separated serialization of array elements. -/
def stringifyArr : JsonArr → String
  | .nil => ""
  | .cons hd .nil => stringify hd
  | .cons hd tl => stringify hd ++ "," ++ stringifyArr tl

/-- Comma-separated serialization of object fields. -/
def stringifyObj : JsonObj → String
  | .nil => ""
  | .cons k v .nil => "\"" ++ escapeChars k.data ++ "\":" ++ stringify v
  | .cons k v tl => "\"" ++ escapeChars k.data ++ "\":" ++ stringify v ++ "," ++ stringifyObj tl

end

example : stringify (.obj (.cons "a" (.num 1) (.cons "b" (.num 2) .nil))) = "\x7b\"a\":1,\"b\":2\x7d" := by
  decide

/-! ## Script runtime instance (`js_engine/runtime.rs`)

One `JsInstance` models one loaded QuickJS context.  `globals` resolves a
global name to a callable; it returns `none` both when the name is absent and
when the bound value is not callable, matching `globals.get::<Function>`
failing in either case.  `parseJson` models the engine `JSON.parse` (its
failure propagates to the caller via the `?` operator in the source).
Module functions are modelled as maps from the parsed argument and the
module-private mutable state `S` to a call outcome and a successor state.

What `Promise::finish` produces after synchronously draining the job queue is
modelled by `PromiseResult`: the promise settled fulfilled, settled rejected,
or the queue drained without settlement (`rquickjs::Error::WouldBlock`). -/

/-- Outcome of `promise.finish::<Value>()` after draining the job queue. -/
inductive PromiseResult where
  | fulfilled (v : Json)
  | rejected (msg : String)
  | wouldBlock

/-- Outcome of invoking a script function: a direct return value, a promise
(to be settled by draining the job queue), or a thrown exception. -/
inductive CallOutcome where
  | ret (v : Json)
  | promise (p : PromiseResult)
  | thrown (msg : String)

/-- A loaded script runtime instance with module-private state of type `S`. -/
structure JsInstance (S : Type) where
  globals : String → Option (Json → S → CallOutcome × S)
  parseJson : String → Except String Json
  state : S

/-- Embedding of `JsRuntime::call_function_json` (runtime.rs lines 139-237):
resolve the function in global scope (structured `Function not found` failure
when absent or not callable, before anything runs), parse the JSON argument,
invoke the function, and if the result is a promise drain the job queue via
`Promise::finish`: a fulfilled value is serialized to JSON and returned, a
rejection becomes a structured `JS Promise Error`, and a drain that cannot
settle the promise (`WouldBlock`) yields the serialization of `null`.
Non-promise return values are serialized directly. -/
def call_function_json {S : Type} (inst : JsInstance S) (func_name args_json : String) :
    Except String String × JsInstance S :=
  match inst.globals func_name with
  | none => (.error ("Function not found: " ++ func_name), inst)
  | some func =>
    match inst.parseJson args_json with
    | .error e => (.error e, inst)
    | .ok args =>
      match func args inst.state with
      | (outcome, s) =>
        let inst' : JsInstance S := { inst with state := s }
        match outcome with
        | .ret v => (.ok (stringify v), inst')
        | .thrown msg => (.error msg, inst')
        | .promise p =>
          match p with
          | .fulfilled v => (.ok (stringify v), inst')
          | .rejected msg => (.error ("JS Promise Error: " ++ msg), inst')
          | .wouldBlock => (.ok "null", inst')

/-! ## Module loader metadata extraction (`js_engine/module_loader.rs`)

`extract_field` embeds the two regex patterns used by the source,
`field:\s*["<q>]([^"<q>]+)["<q>]` and `"field":\s*["<q>]([^"<q>]+)["<q>]`
(where `<q>` stands for the single-quote character): a literal occurrence of
the field name followed by a colon, optional whitespace, an opening quote of
either kind, a non-empty run of non-quote characters (the captured value),
and a closing quote of either kind.  The search is leftmost-match, and the
second pattern is only consulted when the first has no match anywhere, as in
the source.  Both pattern pieces are greedy with no productive backtracking,
so maximal-munch scanning is an exact embedding. -/

instance exceptDecEq {α β : Type} [DecidableEq α] [DecidableEq β] : DecidableEq (Except α β) :=
  fun x y =>
    match x, y with
    | .error a, .error b =>
      if h : a = b then .isTrue (by rw [h]) else .isFalse (by simp [h])
    | .ok a, .ok b =>
      if h : a = b then .isTrue (by rw [h]) else .isFalse (by simp [h])
    | .error _, .ok _ => .isFalse (by simp)
    | .ok _, .error _ => .isFalse (by simp)

/-- The single-quote character (written via its code point). -/
def squote : Char := Char.ofNat 39

/-- The double-quote character. -/
def dquote : Char := Char.ofNat 34

/-- Whitespace, as matched by the regex class `\s` on the ASCII range. -/
def isWs (c : Char) : Bool :=
  c = ' ' || c = Char.ofNat 9 || c = Char.ofNat 10 || c = Char.ofNat 13 ||
  c = Char.ofNat 11 || c = Char.ofNat 12

/-- Quote characters accepted by the character class in the patterns. -/
def isQuote (c : Char) : Bool := c = dquote || c = squote

/-- Match the common tail of both patterns at the current position:
`\s*["<q>]([^"<q>]+)["<q>]`.  Returns the captured run on success. -/
def matchQuotedValue (cs : List Char) : Option (List Char) :=
  match cs.dropWhile isWs with
  | [] => none
  | q :: rest =>
    if isQuote q then
      let run := rest.takeWhile (fun c => !(isQuote c))
      if run.isEmpty then none
      else
        match rest.drop run.length with
        | [] => none
        | _ :: _ => some run
    else none

/-- Try to match `lit` followed by the quoted-value tail at the head of
`cs`. -/
def matchLitAt (lit cs : List Char) : Option (List Char) :=
  if lit.isPrefixOf cs then matchQuotedValue (cs.drop lit.length) else none

/-- Leftmost search for `lit` followed by the quoted-value tail. -/
def searchLit (lit : List Char) : List Char → Option (List Char)
  | [] => matchLitAt lit []
  | c :: rest =>
    match matchLitAt lit (c :: rest) with
    | some r => some r
    | none => searchLit lit rest

/-- Error message produced by `extract_field` when a field is absent. -/
def field_error_msg (field : String) : String :=
  "Field " ++ String.singleton squote ++ field ++ String.singleton squote ++
    " not found in module script"

/-- Embedding of `ModuleLoader::extract_field`: try the bare pattern
`field:...` over the whole script, then the quoted pattern `"field":...`,
and fail with the source error message when neither matches. -/
def extract_field (script field : String) : Except String String :=
  match searchLit (field.data ++ [':']) script.data with
  | some r => .ok (String.mk r)
  | none =>
    match searchLit (dquote :: field.data ++ [dquote, ':']) script.data with
    | some r => .ok (String.mk r)
    | none => .error (field_error_msg field)

/-- Module metadata extracted from the raw script text
(`ModuleLoader::extract_metadata`). -/
structure ModuleMetadata where
  id : String
  name : String
  version : String
  description : String
  deriving DecidableEq

/-- Embedding of `ModuleLoader::extract_metadata`: a pure function of the
script text (no part of the script is executed).  The `id`, `name` and
`version` fields are hard requirements whose extraction failure propagates;
`description` falls back to the empty string (`unwrap_or_default`). -/
def extract_metadata (script : String) : Except String ModuleMetadata :=
  match extract_field script "id" with
  | .error e => .error e
  | .ok id =>
    match extract_field script "name" with
    | .error e => .error e
    | .ok name =>
      match extract_field script "version" with
      | .error e => .error e
      | .ok version =>
        let description :=
          match extract_field script "description" with
          | .ok d => d
          | .error _ => ""
        .ok { id := id, name := name, version := version, description := description }

example :
    extract_metadata "const moduleInfo = \x7b id: \"test_module\", name: \"Test Module\", version: \"1.0.0\", description: \"A test module\" \x7d;" =
      .ok { id := "test_module", name := "Test Module", version := "1.0.0", description := "A test module" } := by
  decide

/-! ## Scoped storage binding (`js_engine/bindings/storage.rs`,
`database/entities/property.rs`)

The `properties` table is keyed by the string primary key produced by
`property::Model::create_id`; it is modelled as a function from primary key
to optional record.  The database handle may be absent
(`database::get_database()` returning `None`) which the native primitives
swallow, so they take an `Option` of the table. -/

/-- A row of the `properties` table (primary key left implicit: the model
maps primary keys to the remaining columns). -/
structure PropRecord where
  module_id : String
  key : String
  value : String
  created_at : Int
  updated_at : Int
  deriving DecidableEq

/-- The `properties` table: primary-key string to row. -/
def PropDb : Type := String → Option PropRecord

/-- Embedding of `property::Model::create_id`: the composite primary key
`format!("\x7b\x7d:\x7b\x7d", module_id, key)`. -/
def create_id (module_id key : String) : String :=
  module_id ++ ":" ++ key

/-- Embedding of the `__native_storage_get_sync__` primitive: look up the
composite key and return the stored value; a missing database, a failed
query or a missing row all collapse to the empty string. -/
def native_storage_get_sync (db : Option PropDb) (module_id key : String) : String :=
  match db with
  | none => ""
  | some d =>
    match d (create_id module_id key) with
    | some row => row.value
    | none => ""

/-- Embedding of the `__native_storage_set_sync__` primitive: upsert under
the composite key, preserving `created_at` on update; returns the success
flag and the updated table. -/
def native_storage_set_sync (db : Option PropDb) (module_id key value : String) (now : Int) :
    Bool × Option PropDb :=
  match db with
  | none => (false, none)
  | some d =>
    let id := create_id module_id key
    match d id with
    | some old =>
      (true, some (fun i => if i = id then
        some { module_id := module_id, key := key, value := value,
               created_at := old.created_at, updated_at := now }
        else d i))
    | none =>
      (true, some (fun i => if i = id then
        some { module_id := module_id, key := key, value := value,
               created_at := now, updated_at := now }
        else d i))

/-- Embedding of the script-side wrapper `storage.get` (the helper script in
storage.rs): `__native_storage_get_sync__(moduleId, key) || null` — the
empty string is falsy in JS, so it is mapped to `null` (modelled as
`none`). -/
def storage_get (db : Option PropDb) (module_id key : String) : Option String :=
  let result := native_storage_get_sync db module_id key
  if result = "" then none else some result

/-! ## Module manager (`modules/manager.rs`)

The manager state holds the script files on disk (`ModuleLoader`), the
persisted `module_info` table, the in-memory registry of loaded instances
(an association list, so that multiplicity is observable), a per-module
count of how many times the module top-level source has been evaluated
(`JsRuntime::load_module`), and a fresh-runtime counter. -/

/-- A row of the `module_info` table. -/
structure ModuleRecord where
  id : String
  name : String
  version : String
  description : String
  script_path : String
  enabled : Bool
  created_at : Int
  updated_at : Int
  deriving DecidableEq

/-- Module manager state. -/
structure MgrState where
  scripts : String → Option String
  db : String → Option ModuleRecord
  instances : List (String × Nat)
  initCount : String → Nat
  nextId : Nat

/-- Embedding of `ModuleManager::load_module` (manager.rs lines 123-175):
return immediately when an instance for the id is already registered;
otherwise look the module up in the database (`Module not found`), refuse
disabled modules (`Module is disabled`), read the script from disk, build a
fresh runtime, execute the module top-level source once (counted by
`initCount`), and insert the instance into the registry.  Runtime
construction and top-level evaluation are modelled as succeeding; on their
failure the source returns before mutating the registry. -/
def load_module (st : MgrState) (module_id : String) : Except String Unit × MgrState :=
  if (st.instances.lookup module_id).isSome then (.ok (), st)
  else
    match st.db module_id with
    | none => (.error ("Module not found: " ++ module_id), st)
    | some m =>
      if !m.enabled then (.error ("Module is disabled: " ++ module_id), st)
      else
        match st.scripts module_id with
        | none => (.error ("Module script not found: " ++ module_id), st)
        | some _script =>
          (.ok (), { st with
            instances := (module_id, st.nextId) :: st.instances,
            initCount := fun x => if x = module_id then st.initCount x + 1 else st.initCount x,
            nextId := st.nextId + 1 })

/-- The `module_info` row written by `register_module`: all metadata fields
from the extracted metadata, the script path derived from the disk module
id, `enabled` set to `true`, and the given timestamps. -/
def mkRegRow (md : ModuleMetadata) (module_id : String) (created updated : Int) :
    ModuleRecord :=
  { id := md.id, name := md.name, version := md.version,
    description := md.description, script_path := module_id ++ ".js",
    enabled := true, created_at := created, updated_at := updated }

/-- Embedding of `ModuleManager::register_module` (manager.rs lines 59-120):
read the script from disk, validate it (the hard part of validation is
metadata extraction, whose failure propagates; the entry-point scan only
logs warnings), and upsert the `module_info` row keyed by the extracted
metadata id: on update `created_at` is left `NotSet` (preserved) and
`enabled` is set to `true`; on insert both timestamps are `now`.  The
returned value is the persisted row (the source projects it to a
`ModuleInfo`). -/
def register_module (st : MgrState) (module_id : String) (now : Int) :
    Except String ModuleRecord × MgrState :=
  match st.scripts module_id with
  | none => (.error ("Module script not found: " ++ module_id), st)
  | some script =>
    match extract_metadata script with
    | .error e => (.error e, st)
    | .ok metadata =>
      match st.db metadata.id with
      | some existing =>
        let row := mkRegRow metadata module_id existing.created_at now
        (.ok row, { st with db := fun i => if i = metadata.id then some row else st.db i })
      | none =>
        let row := mkRegRow metadata module_id now now
        (.ok row, { st with db := fun i => if i = metadata.id then some row else st.db i })

/-! ## Image cache lookup (`api/image_cache_api.rs`,
`database/entities/image_cache.rs`)

The `image_cache` table is keyed by `create_cache_key`, an md5 digest of
`"module_id:url"`; the digest function itself is kept abstract as a
parameter (its internals are irrelevant to the lookup logic).  The
filesystem is modelled as the set of existing file paths. -/

/-- A row of the `image_cache` table. -/
structure CacheRecord where
  cache_key : String
  module_id : String
  url : String
  file_path : String
  content_type : String
  file_size : Int
  expire_at : Int
  created_at : Int
  deriving DecidableEq

/-- Image cache state: the table plus the set of files present on disk. -/
structure CacheState where
  table : String → Option CacheRecord
  files : String → Bool

/-- Embedding of `image_cache::Model::create_cache_key`, with the md5 digest
abstracted as the `digest` parameter applied to the formatted
`"module_id:url"` input. -/
def create_cache_key (digest : String → String) (module_id url : String) : String :=
  digest (module_id ++ ":" ++ url)

/-- Embedding of `get_cached_image` (image_cache_api.rs lines 10-45): look
up the record; when the expiry is still in the future return the file path
if the file exists (deleting the stale record otherwise); when the record
is expired (`expire_at > now` fails), remove the backing file and the
record and report a miss. -/
def get_cached_image (digest : String → String) (st : CacheState)
    (module_id url : String) (now : Int) : Option String × CacheState :=
  let cache_key := create_cache_key digest module_id url
  match st.table cache_key with
  | none => (none, st)
  | some cache =>
    if now < cache.expire_at then
      if st.files cache.file_path then (some cache.file_path, st)
      else (none, { st with table := fun k => if k = cache_key then none else st.table k })
    else
      (none,
        { table := fun k => if k = cache_key then none else st.table k,
          files := fun p => if p = cache.file_path then false else st.files p })

/-! ## HTTP bridge binding (`js_engine/bindings/http.rs`, `http/client.rs`)

The native binding parses the request configuration, hands the request to a
bridge worker (its own thread with its own async driver), joins the worker,
and always hands a string back to the script.  The worker outcome is kept
abstract: it produced a response, failed with an error, or panicked (the
`join` returning `Err`). -/

/-- The parsed HTTP request configuration (`http/client.rs`). -/
structure HttpRequest where
  url : String
  method : String
  headers : List (String × String)
  body : Option String
  timeout_secs : Nat
  deriving DecidableEq

/-- What joining the bridge worker can yield: a response (already shaped as
a JSON value for serialization), a request error, or a worker panic. -/
inductive WorkerOutcome where
  | ok (response : Json)
  | err (msg : String)
  | panicked

/-- Build the structured error value `\x7b"error": msg\x7d` serialized to
JSON, as produced by `serde_json::to_string(&json!(...))` in the source. -/
def jsonError (msg : String) : String :=
  stringify (.obj (.cons "error" (.str msg) .nil))

/-- Embedding of the `__native_http_request_sync__` binding (http.rs lines
30-59, with the config-parse branch of lines 16-24): every branch returns a
string to the script.  A parse failure and a request failure become
structured `\x7b"error": ...\x7d` objects; a worker panic (the thread join
failing) becomes the structured `HTTP request thread panicked` error and is
never propagated; a successful response is serialized. -/
def native_http_request_sync (parsed : Except String HttpRequest)
    (worker : HttpRequest → WorkerOutcome) : String :=
  match parsed with
  | .error e => jsonError ("Failed to parse request: " ++ e)
  | .ok request =>
    match worker request with
    | .ok response => stringify response
    | .err e => jsonError ("Request failed: " ++ e)
    | .panicked => jsonError "HTTP request thread panicked"

/-! ## Crypto decode bindings (`js_engine/bindings/crypto.rs`,
`crypto/hash.rs`)

Text is modelled at the character-list level and byte payloads as lists of
naturals below 256.  `base64_decode` embeds the `base64` crate
`general_purpose::STANDARD` engine: standard alphabet, canonical padding
required, non-zero trailing bits rejected.  `hex_decode` embeds the `hex`
crate decoder (even length, both letter cases).  `utf8Decode` embeds strict
`String::from_utf8` validation and `utf8Lossy` embeds
`String::from_utf8_lossy` with maximal-subpart replacement. -/

/-- Value of a standard-alphabet base64 character. -/
def base64Val (c : Char) : Option Nat :=
  let n := c.toNat
  if 65 ≤ n && n ≤ 90 then some (n - 65)
  else if 97 ≤ n && n ≤ 122 then some (n - 97 + 26)
  else if 48 ≤ n && n ≤ 57 then some (n - 48 + 52)
  else if c = '+' then some 62
  else if c = '/' then some 63
  else none

/-- Embedding of `crypto::base64_decode` via the `STANDARD` engine: input
length must be a multiple of four, padding only in the final block and only
in canonical form, and the unused low bits of the final symbol must be
zero. -/
def base64_decode : List Char → Option (List Nat)
  | [] => some []
  | c1 :: c2 :: c3 :: c4 :: rest =>
    match base64Val c1, base64Val c2 with
    | some v1, some v2 =>
      if rest.isEmpty then
        if c3 = '=' && c4 = '=' then
          if v2 % 16 = 0 then some [v1 * 4 + v2 / 16] else none
        else if c4 = '=' then
          match base64Val c3 with
          | some v3 =>
            if v3 % 4 = 0 then some [v1 * 4 + v2 / 16, (v2 % 16) * 16 + v3 / 4] else none
          | none => none
        else
          match base64Val c3, base64Val c4 with
          | some v3, some v4 =>
            some [v1 * 4 + v2 / 16, (v2 % 16) * 16 + v3 / 4, (v3 % 4) * 64 + v4]
          | _, _ => none
      else
        match base64Val c3, base64Val c4 with
        | some v3, some v4 =>
          match base64_decode rest with
          | some bs =>
            some ([v1 * 4 + v2 / 16, (v2 % 16) * 16 + v3 / 4, (v3 % 4) * 64 + v4] ++ bs)
          | none => none
        | _, _ => none
    | _, _ => none
  | _ => none

/-- Continuation byte test for UTF-8 (`0x80..=0xBF`). -/
def isCont (n : Nat) : Bool := 128 ≤ n && n ≤ 191

/-- Constrained range of the second byte of a three-byte UTF-8 sequence. -/
def utf8SecondOf3Ok (b1 b2 : Nat) : Bool :=
  if b1 = 224 then 160 ≤ b2 && b2 ≤ 191
  else if b1 = 237 then 128 ≤ b2 && b2 ≤ 159
  else isCont b2

/-- Constrained range of the second byte of a four-byte UTF-8 sequence. -/
def utf8SecondOf4Ok (b1 b2 : Nat) : Bool :=
  if b1 = 240 then 144 ≤ b2 && b2 ≤ 191
  else if b1 = 244 then 128 ≤ b2 && b2 ≤ 143
  else isCont b2

/-- Strict UTF-8 decoding of a byte list to characters, embedding the
validation performed by `String::from_utf8` (overlongs and surrogates
rejected). -/
def utf8Decode : List Nat → Option (List Char)
  | [] => some []
  | b1 :: rest =>
    if b1 ≤ 127 then
      match utf8Decode rest with
      | some cs => some (Char.ofNat b1 :: cs)
      | none => none
    else if 194 ≤ b1 && b1 ≤ 223 then
      match rest with
      | b2 :: rest2 =>
        if isCont b2 then
          match utf8Decode rest2 with
          | some cs => some (Char.ofNat ((b1 - 192) * 64 + (b2 - 128)) :: cs)
          | none => none
        else none
      | [] => none
    else if 224 ≤ b1 && b1 ≤ 239 then
      match rest with
      | b2 :: b3 :: rest3 =>
        if utf8SecondOf3Ok b1 b2 && isCont b3 then
          match utf8Decode rest3 with
          | some cs =>
            some (Char.ofNat ((b1 - 224) * 4096 + (b2 - 128) * 64 + (b3 - 128)) :: cs)
          | none => none
        else none
      | _ => none
    else if 240 ≤ b1 && b1 ≤ 244 then
      match rest with
      | b2 :: b3 :: b4 :: rest4 =>
        if utf8SecondOf4Ok b1 b2 && isCont b3 && isCont b4 then
          match utf8Decode rest4 with
          | some cs =>
            some (Char.ofNat ((b1 - 240) * 262144 + (b2 - 128) * 4096 +
              (b3 - 128) * 64 + (b4 - 128)) :: cs)
          | none => none
        else none
      | _ => none
    else none

/-- The Unicode replacement character. -/
def repChar : Char := Char.ofNat 65533

/-- One step of lossy UTF-8 decoding at head byte `b1` with remaining bytes
`rest`: decode one well-formed scalar, or replace the maximal subpart of an
ill-formed sequence with the replacement character.  Returns the produced
character and the bytes not consumed. -/
def utf8LossyStep (b1 : Nat) (rest : List Nat) : Char × List Nat :=
  if b1 ≤ 127 then (Char.ofNat b1, rest)
  else if 194 ≤ b1 && b1 ≤ 223 then
    match rest with
    | b2 :: rest2 =>
      if isCont b2 then (Char.ofNat ((b1 - 192) * 64 + (b2 - 128)), rest2)
      else (repChar, b2 :: rest2)
    | [] => (repChar, [])
  else if 224 ≤ b1 && b1 ≤ 239 then
    match rest with
    | b2 :: rest2 =>
      if utf8SecondOf3Ok b1 b2 then
        match rest2 with
        | b3 :: rest3 =>
          if isCont b3 then
            (Char.ofNat ((b1 - 224) * 4096 + (b2 - 128) * 64 + (b3 - 128)), rest3)
          else (repChar, b3 :: rest3)
        | [] => (repChar, [])
      else (repChar, b2 :: rest2)
    | [] => (repChar, [])
  else if 240 ≤ b1 && b1 ≤ 244 then
    match rest with
    | b2 :: rest2 =>
      if utf8SecondOf4Ok b1 b2 then
        match rest2 with
        | b3 :: rest3 =>
          if isCont b3 then
            match rest3 with
            | b4 :: rest4 =>
              if isCont b4 then
                (Char.ofNat ((b1 - 240) * 262144 + (b2 - 128) * 4096 +
                  (b3 - 128) * 64 + (b4 - 128)), rest4)
              else (repChar, b4 :: rest4)
            | [] => (repChar, [])
          else (repChar, b3 :: rest3)
        | [] => (repChar, [])
      else (repChar, b2 :: rest2)
    | [] => (repChar, [])
  else (repChar, rest)

/-- Driver for lossy decoding.  The fuel is initialized to the byte count;
every step consumes at least the head byte, so the fuel never runs out and
the zero-fuel branch is unreachable. -/
def utf8LossyAux : Nat → List Nat → List Char
  | _, [] => []
  | 0, _ :: _ => []
  | fuel + 1, b1 :: rest =>
    (utf8LossyStep b1 rest).1 :: utf8LossyAux fuel (utf8LossyStep b1 rest).2

/-- Lossy UTF-8 decoding, embedding `String::from_utf8_lossy`: each maximal
subpart of an ill-formed sequence is replaced by one replacement
character. -/
def utf8Lossy (bs : List Nat) : List Char :=
  utf8LossyAux bs.length bs

/-- Embedding of `crypto::base64_decode_string`: decode the base64 text to
bytes, then validate those bytes as UTF-8. -/
def base64_decode_string (s : List Char) : Option (List Char) :=
  match base64_decode s with
  | some bs => utf8Decode bs
  | none => none

/-- Value of a hex digit character (both letter cases, as accepted by the
`hex` crate). -/
def hexVal (c : Char) : Option Nat :=
  let n := c.toNat
  if 48 ≤ n && n ≤ 57 then some (n - 48)
  else if 97 ≤ n && n ≤ 102 then some (n - 97 + 10)
  else if 65 ≤ n && n ≤ 70 then some (n - 65 + 10)
  else none

/-- Embedding of `crypto::hex_decode`: pairs of hex digits; odd length or a
non-digit character is an error. -/
def hex_decode : List Char → Option (List Nat)
  | [] => some []
  | c1 :: c2 :: rest =>
    match hexVal c1, hexVal c2 with
    | some hi, some lo =>
      match hex_decode rest with
      | some bs => some ((hi * 16 + lo) :: bs)
      | none => none
    | _, _ => none
  | _ => none

/-- Embedding of the `crypto.base64Decode` binding (crypto.rs lines 33-35):
`base64_decode_string(data).unwrap_or_default()` — any decode or UTF-8
failure collapses to the empty string. -/
def cryptoBase64Decode (s : List Char) : List Char :=
  match base64_decode_string s with
  | some cs => cs
  | none => []

/-- Embedding of the `crypto.hexDecode` binding (crypto.rs lines 43-47):
decode the hex text and lossily convert the bytes
(`String::from_utf8_lossy`), with any hex failure collapsing to the empty
string (`unwrap_or_default`). -/
def cryptoHexDecode (s : List Char) : List Char :=
  match hex_decode s with
  | some bs => utf8Lossy bs
  | none => []

example : cryptoBase64Decode "aGVsbG8=".data = "hello".data := by decide
example : cryptoBase64Decode "!!!".data = [] := by decide
example : cryptoBase64Decode "/w==".data = [] := by decide
example : cryptoHexDecode "68656c6c6f".data = "hello".data := by decide
example : cryptoHexDecode "zz".data = [] := by decide
example : cryptoHexDecode "ff".data = [repChar] := by decide

/-! ## Concrete demonstration values used by the witnesses -/

/-- The search result object of the concrete scenario in the spec. -/
def searchResult : Json :=
  .obj (.cons "total" (.num 0) (.cons "limit" (.num 20) (.cons "page" (.num 1)
    (.cons "pages" (.num 0) (.cons "docs" (.arr .nil) .nil)))))

/-- A module `search` function returning a promise that settles fulfilled
with `searchResult`. -/
def searchFn : Json → Unit → CallOutcome × Unit :=
  fun _ s => (.promise (.fulfilled searchResult), s)

/-- A loaded instance exposing only `search`. -/
def searchInst : JsInstance Unit where
  globals := fun n => if n = "search" then some searchFn else none
  parseJson := fun s => if s = "\x7b\x7d" then .ok (.obj .nil) else .error "invalid json"
  state := ()

/-- The category list of the concrete scenario in the spec. -/
def getCategoriesResult : Json :=
  .arr (.cons (.obj (.cons "id" (.str "1") (.cons "title" (.str "Action") .nil))) .nil)

/-- A module `getCategories` function returning the category list
directly. -/
def getCategoriesFn : Json → Unit → CallOutcome × Unit :=
  fun _ s => (.ret getCategoriesResult, s)

/-- A loaded instance exposing only `getCategories`. -/
def demoInst : JsInstance Unit where
  globals := fun n => if n = "getCategories" then some getCategoriesFn else none
  parseJson := fun s => if s = "\x7b\x7d" then .ok (.obj .nil) else .error "invalid json"
  state := ()

/-- A module script whose metadata extraction yields id `m`, name `N`,
version `1.0` and no description. -/
def demoScript : String := "id: \"m\", name: \"N\", version: \"1.0\""

/-- A persisted `module_info` row for the demo module. -/
def demoRecord : ModuleRecord where
  id := "m"
  name := "N"
  version := "1.0"
  description := ""
  script_path := "m.js"
  enabled := true
  created_at := 0
  updated_at := 0

/-- A manager state with the demo module registered and enabled but not
loaded. -/
def mgrDemo : MgrState where
  scripts := fun i => if i = "m" then some demoScript else none
  db := fun i => if i = "m" then some demoRecord else none
  instances := []
  initCount := fun _ => 0
  nextId := 0

/-- The record persisted by registering the demo module at time 5. -/
def regRow1 : ModuleRecord where
  id := "m"
  name := "N"
  version := "1.0"
  description := ""
  script_path := "m.js"
  enabled := true
  created_at := 0
  updated_at := 5

/-- A concrete HTTP request configuration. -/
def demoRequest : HttpRequest where
  url := "http://example.com"
  method := "GET"
  headers := []
  body := none
  timeout_secs := 30

/-- A script missing the `id` field (while carrying `name` and
`version`). -/
def scriptNoId : String := "const moduleInfo = \x7b name: \"N\", version: \"1.0\" \x7d;"

/-- A script carrying `id`, `name` and `version` but no `description`. -/
def scriptNoDesc : String := "id: \"m\", name: \"N\", version: \"1.0\""

/-! ## Theorems -/

/-- Claim C1.  For every loaded module whose invoked function returns a
promise, `call_function_json` drains the instance job queue until the
promise settles, and when it settles fulfilled with value `v` the call
returns the JSON serialization of `v` itself — the caller never observes a
pending placeholder. -/
theorem call_function_json_settled_promise {S : Type} (inst : JsInstance S)
    (f args_json : String) (fn : Json → S → CallOutcome × S)
    (args v : Json) (s : S)
    (hf : inst.globals f = some fn)
    (hp : inst.parseJson args_json = .ok args)
    (hcall : fn args inst.state = (.promise (.fulfilled v), s)) :
    (call_function_json inst f args_json).1 = .ok (stringify v) := by
  simp only [call_function_json, hf, hp, hcall]

/-- Witness for claim C1: the concrete search scenario of the spec yields
exactly the settled object as JSON. -/
theorem call_function_json_settled_promise_witness :
    searchInst.globals "search" = some searchFn ∧
    searchInst.parseJson "\x7b\x7d" = .ok (.obj .nil) ∧
    searchFn (.obj .nil) searchInst.state = (.promise (.fulfilled searchResult), ()) ∧
    (call_function_json searchInst "search" "\x7b\x7d").1 =
      .ok "\x7b\"total\":0,\"limit\":20,\"page\":1,\"pages\":0,\"docs\":[]\x7d" := by
  refine ⟨rfl, rfl, rfl, ?_⟩
  exact call_function_json_settled_promise searchInst "search" "\x7b\x7d" searchFn
    (.obj .nil) searchResult () rfl rfl rfl

/-- Claim C4.  Calling a function name absent from (or not callable in) the
global scope returns the structured `Function not found` failure with the
instance left untouched, and a subsequent call to an existing function on
the same instance still succeeds. -/
theorem call_function_json_not_found {S : Type} (inst : JsInstance S)
    (f g args_json : String)
    (hf : inst.globals f = none) :
    call_function_json inst f args_json = (.error ("Function not found: " ++ f), inst) ∧
    (∀ (fn : Json → S → CallOutcome × S) (args v : Json) (s : S),
      inst.globals g = some fn → inst.parseJson args_json = .ok args →
      fn args inst.state = (.ret v, s) →
      (call_function_json inst g args_json).1 = .ok (stringify v)) := by
  constructor
  · simp only [call_function_json, hf]
  · intro fn args v s hg hp hc
    simp only [call_function_json, hg, hp, hc]

/-- Witness for claim C4: an unknown name fails with the structured error
and leaves the instance usable; the following `getCategories` call
succeeds. -/
theorem call_function_json_not_found_witness :
    demoInst.globals "nosuch" = none ∧
    call_function_json demoInst "nosuch" "\x7b\x7d" =
      (.error "Function not found: nosuch", demoInst) ∧
    (call_function_json demoInst "getCategories" "\x7b\x7d").1 =
      .ok "[\x7b\"id\":\"1\",\"title\":\"Action\"\x7d]" := by
  have h := call_function_json_not_found demoInst "nosuch" "getCategories" "\x7b\x7d" rfl
  exact ⟨rfl, h.1, h.2 getCategoriesFn (.obj .nil) getCategoriesResult () rfl rfl rfl⟩

/-- A key that `List.lookup` does not find occurs zero times in an
association list. -/
lemma countP_eq_zero_of_lookup_none {β : Type} (m : String)
    (l : List (String × β)) (h : l.lookup m = none) :
    l.countP (fun p => p.1 == m) = 0 := by
  induction l with
  | nil => simp
  | cons hd tl ih =>
    obtain ⟨a, b⟩ := hd
    rw [List.lookup] at h
    by_cases hma : m = a
    · subst hma
      simp at h
    · have hne : (m == a) = false := beq_eq_false_iff_ne.mpr hma
      rw [hne] at h
      rw [List.countP_cons]
      have hne2 : (a == m) = false := beq_eq_false_iff_ne.mpr (Ne.symm hma)
      simp [hne2, ih h]

/-- Claim C2.  When no instance for a module id is registered and a load
succeeds, the registry afterwards holds exactly one instance for that id,
the module top-level source has been evaluated exactly once more, and a
second load of the same id is a no-op success: it returns the state
unchanged, creating no new runtime and re-running no top-level code. -/
theorem load_module_idempotent (st : MgrState) (m : String)
    (h0 : st.instances.lookup m = none)
    (h1 : (load_module st m).1 = .ok ()) :
    (load_module st m).2.instances.countP (fun p => p.1 == m) = 1 ∧
    (load_module st m).2.initCount m = st.initCount m + 1 ∧
    load_module (load_module st m).2 m = (.ok (), (load_module st m).2) := by
  have hns : (st.instances.lookup m).isSome = false := by rw [h0]; rfl
  cases hdb : st.db m with
  | none =>
    exfalso
    unfold load_module at h1
    rw [h0, hdb] at h1
    simp at h1
  | some rec =>
    cases hen : rec.enabled with
    | false =>
      exfalso
      unfold load_module at h1
      rw [h0, hdb] at h1
      simp [hen] at h1
    | true =>
      cases hs : st.scripts m with
      | none =>
        exfalso
        unfold load_module at h1
        rw [h0, hdb] at h1
        simp [hen, hs] at h1
      | some script =>
        have hload : load_module st m =
            (.ok (), { st with
              instances := (m, st.nextId) :: st.instances,
              initCount := fun x => if x = m then st.initCount x + 1 else st.initCount x,
              nextId := st.nextId + 1 }) := by
          unfold load_module
          rw [h0, hdb]
          simp [hen, hs]
        rw [hload]
        refine ⟨?_, ?_, ?_⟩
        · rw [List.countP_cons]
          simp [countP_eq_zero_of_lookup_none m st.instances h0]
        · simp
        · unfold load_module
          simp [List.lookup]

/-- Witness for claim C2 at the demo manager state. -/
theorem load_module_idempotent_witness :
    mgrDemo.instances.lookup "m" = none ∧
    (load_module mgrDemo "m").1 = .ok () ∧
    ((load_module mgrDemo "m").2.instances.countP (fun p => p.1 == "m") = 1 ∧
     (load_module mgrDemo "m").2.initCount "m" = mgrDemo.initCount "m" + 1 ∧
     load_module (load_module mgrDemo "m").2 "m" = (.ok (), (load_module mgrDemo "m").2)) :=
  ⟨rfl, rfl, load_module_idempotent mgrDemo "m" rfl rfl⟩

/-- For one fixed key, the composite primary key determines the module id:
`a ++ ":" ++ k = b ++ ":" ++ k` forces `a = b` (the two sides have equal
length, so the prefixes coincide). -/
lemma create_id_key_inj {a b k : String} (h : create_id a k = create_id b k) :
    a = b := by
  unfold create_id at h
  have hd := congrArg String.data h
  simp only [String.data_append] at hd
  have := List.append_cancel_right (List.append_cancel_right hd)
  cases a
  cases b
  exact congrArg String.mk this

/-- Counterexample for claim C3 as stated: the composite keys of the
distinct pairs `("a", "b:c")` and `("a:b", "c")` collide, and the collision
is observable — module `a:b` writing key `c` is visible to module `a`
reading key `b:c`. -/
theorem create_id_collision :
    create_id "a" "b:c" = create_id "a:b" "c" ∧
    ("a", "b:c") ≠ (("a:b", "c") : String × String) ∧
    native_storage_get_sync
      (native_storage_set_sync (some (fun _ => none)) "a:b" "c" "v" 0).2 "a" "b:c" = "v" := by
  refine ⟨by decide, by decide, rfl⟩

/-- Claim C3 (amended).  Within one module, a native storage set followed by
a get returns the stored value; and for one fixed key, a set performed by
module `a` is invisible to any distinct module `b` reading the same key —
the composite keys of distinct module ids with the same key never collide.
(Distinct `(module_id, key)` pairs with different keys can still collide
when a module id contains a colon, per `create_id_collision`.) -/
theorem storage_roundtrip_and_isolation (db : PropDb) (a b k v : String)
    (now : Int) (hab : a ≠ b) :
    native_storage_get_sync (native_storage_set_sync (some db) a k v now).2 a k = v ∧
    native_storage_get_sync (native_storage_set_sync (some db) a k v now).2 b k =
      native_storage_get_sync (some db) b k := by
  have hne : create_id b k ≠ create_id a k := fun hcol => hab (create_id_key_inj hcol).symm
  constructor
  · unfold native_storage_set_sync native_storage_get_sync
    cases hd : db (create_id a k) <;> simp [hd]
  · unfold native_storage_set_sync native_storage_get_sync
    cases hd : db (create_id a k) <;> simp [hd, hne]

/-- Witness for claim C3 (amended) at two distinct module ids and an empty
table. -/
theorem storage_roundtrip_and_isolation_witness :
    ("A" : String) ≠ "B" ∧
    (native_storage_get_sync
        (native_storage_set_sync (some (fun _ => none)) "A" "k" "v" 0).2 "A" "k" = "v" ∧
     native_storage_get_sync
        (native_storage_set_sync (some (fun _ => none)) "A" "k" "v" 0).2 "B" "k" =
       native_storage_get_sync (some (fun _ => none)) "B" "k") :=
  ⟨by decide, storage_roundtrip_and_isolation (fun _ => none) "A" "B" "k" "v" 0 (by decide)⟩

/-- Claim C5.  Registering a module and then registering it again with the
source text unchanged persists, the second time, a metadata record equal to
the one persisted by the first registration in every field — including the
enabled flag and the creation timestamp — except for the updated timestamp;
both records are persisted under the metadata id. -/
theorem register_module_reregister (st : MgrState) (mid : String) (t0 t1 : Int)
    (r1 r2 : ModuleRecord)
    (h1 : (register_module st mid t0).1 = .ok r1)
    (h2 : (register_module (register_module st mid t0).2 mid t1).1 = .ok r2) :
    r2 = { r1 with updated_at := t1 } ∧
    (register_module st mid t0).2.db r1.id = some r1 ∧
    (register_module (register_module st mid t0).2 mid t1).2.db r2.id = some r2 := by
  cases hs : st.scripts mid with
  | none =>
    exfalso
    unfold register_module at h1
    rw [hs] at h1
    simp at h1
  | some script =>
    cases hm : extract_metadata script with
    | error e =>
      exfalso
      unfold register_module at h1
      rw [hs] at h1
      simp only [hm] at h1
      simp at h1
    | ok md =>
      cases hdb : st.db md.id with
      | some old =>
        have e1 : register_module st mid t0 =
            (.ok (mkRegRow md mid old.created_at t0),
             { st with db := fun i => if i = md.id then some (mkRegRow md mid old.created_at t0) else st.db i }) := by
          unfold register_module
          rw [hs]
          simp only [hm, hdb]
        rw [e1] at h1 h2 ⊢
        simp only [Except.ok.injEq] at h1
        have e2 : register_module
            ({ st with db := fun i => if i = md.id then some (mkRegRow md mid old.created_at t0) else st.db i }) mid t1 =
            (.ok (mkRegRow md mid old.created_at t1),
             { st with db := fun i => if i = md.id then some (mkRegRow md mid old.created_at t1) else st.db i }) := by
          unfold register_module
          rw [show ({ st with db := fun i => if i = md.id then some (mkRegRow md mid old.created_at t0) else st.db i } : MgrState).scripts mid = some script from hs]
          simp only [hm]
          simp [mkRegRow]
          funext i
          by_cases hi : i = md.id <;> simp [hi]
        rw [e2] at h2 ⊢
        simp only [Except.ok.injEq] at h2
        subst h1
        subst h2
        refine ⟨rfl, ?_, ?_⟩ <;> simp [mkRegRow]
      | none =>
        have e1 : register_module st mid t0 =
            (.ok (mkRegRow md mid t0 t0),
             { st with db := fun i => if i = md.id then some (mkRegRow md mid t0 t0) else st.db i }) := by
          unfold register_module
          rw [hs]
          simp only [hm, hdb]
        rw [e1] at h1 h2 ⊢
        simp only [Except.ok.injEq] at h1
        have e2 : register_module
            ({ st with db := fun i => if i = md.id then some (mkRegRow md mid t0 t0) else st.db i }) mid t1 =
            (.ok (mkRegRow md mid t0 t1),
             { st with db := fun i => if i = md.id then some (mkRegRow md mid t0 t1) else st.db i }) := by
          unfold register_module
          rw [show ({ st with db := fun i => if i = md.id then some (mkRegRow md mid t0 t0) else st.db i } : MgrState).scripts mid = some script from hs]
          simp only [hm]
          simp [mkRegRow]
          funext i
          by_cases hi : i = md.id <;> simp [hi]
        rw [e2] at h2 ⊢
        simp only [Except.ok.injEq] at h2
        subst h1
        subst h2
        refine ⟨rfl, ?_, ?_⟩ <;> simp [mkRegRow]

/-- Witness for claim C5: registering the demo module at time 5 and again
at time 7 differs only in the updated timestamp. -/
theorem register_module_reregister_witness :
    (register_module mgrDemo "m" 5).1 = .ok regRow1 ∧
    (register_module (register_module mgrDemo "m" 5).2 "m" 7).1 =
      .ok { regRow1 with updated_at := 7 } ∧
    ({ regRow1 with updated_at := 7 } = { regRow1 with updated_at := 7 } ∧
     (register_module mgrDemo "m" 5).2.db regRow1.id = some regRow1 ∧
     (register_module (register_module mgrDemo "m" 5).2 "m" 7).2.db
       ({ regRow1 with updated_at := 7 } : ModuleRecord).id =
       some { regRow1 with updated_at := 7 }) :=
  ⟨by decide, by decide,
    register_module_reregister mgrDemo "m" 5 7 regRow1 { regRow1 with updated_at := 7 }
      (by decide) (by decide)⟩

/-- Claim C6.  A cached image record whose expiry timestamp is in the past
at lookup time is never returned: the lookup reports a miss and deletes both
the database record and the backing file. -/
theorem get_cached_image_expired (digest : String → String) (st : CacheState)
    (module_id url : String) (now : Int) (c : CacheRecord)
    (hfind : st.table (create_cache_key digest module_id url) = some c)
    (hexp : c.expire_at < now) :
    (get_cached_image digest st module_id url now).1 = none ∧
    (get_cached_image digest st module_id url now).2.table
      (create_cache_key digest module_id url) = none ∧
    (get_cached_image digest st module_id url now).2.files c.file_path = false := by
  have hlt : ¬ now < c.expire_at := by omega
  unfold get_cached_image
  simp only [hfind, if_neg hlt]
  simp

/-- A cache state holding one expired record for module `m` and url `u`
whose backing file exists. -/
def expiredCacheState : CacheState where
  table := fun k =>
    if k = "m:u" then
      some { cache_key := "m:u", module_id := "m", url := "u",
             file_path := "/cache/f.img", content_type := "image/png",
             file_size := 10, expire_at := 3, created_at := 1 }
    else none
  files := fun p => p = "/cache/f.img"

/-- Witness for claim C6: with the identity digest, the expired entry is
reported absent and both the record and the file are gone. -/
theorem get_cached_image_expired_witness :
    expiredCacheState.table (create_cache_key (fun s => s) "m" "u") =
      some { cache_key := "m:u", module_id := "m", url := "u",
             file_path := "/cache/f.img", content_type := "image/png",
             file_size := 10, expire_at := 3, created_at := 1 } ∧
    ((3 : Int) < 9) ∧
    ((get_cached_image (fun s => s) expiredCacheState "m" "u" 9).1 = none ∧
     (get_cached_image (fun s => s) expiredCacheState "m" "u" 9).2.table
       (create_cache_key (fun s => s) "m" "u") = none ∧
     (get_cached_image (fun s => s) expiredCacheState "m" "u" 9).2.files "/cache/f.img" = false) :=
  ⟨rfl, by decide,
    get_cached_image_expired (fun s => s) expiredCacheState "m" "u" 9 _ rfl (by decide)⟩

/-- Claim C7.  When the bridge worker carrying out an HTTP request panics,
the native binding still returns normally to the script with the structured
JSON error object carrying an `error` field; the panic never propagates past
the bridge boundary. -/
theorem http_worker_panic_is_structured_error
    (request : HttpRequest) (worker : HttpRequest → WorkerOutcome)
    (hp : worker request = .panicked) :
    native_http_request_sync (.ok request) worker =
      "\x7b\"error\":\"HTTP request thread panicked\"\x7d" := by
  unfold native_http_request_sync
  simp only [hp]
  rfl

/-- Witness for claim C7 at a concrete request and an always-panicking
worker. -/
theorem http_worker_panic_is_structured_error_witness :
    (fun _ : HttpRequest => WorkerOutcome.panicked) demoRequest = .panicked ∧
    native_http_request_sync (.ok demoRequest) (fun _ => .panicked) =
      "\x7b\"error\":\"HTTP request thread panicked\"\x7d" :=
  ⟨rfl, http_worker_panic_is_structured_error demoRequest (fun _ => .panicked) rfl⟩

/-- Claim C8.  `extract_metadata` fails whenever the `id`, `name` or
`version` field cannot be matched in the raw script text, and when those
three are present but `description` is not it succeeds with an empty
description; the result is a pure function of the script text — no part of
the script is executed. -/
theorem extract_metadata_required_fields (script : String) :
    (∀ e, extract_field script "id" = .error e → extract_metadata script = .error e) ∧
    (∀ i e, extract_field script "id" = .ok i → extract_field script "name" = .error e →
      extract_metadata script = .error e) ∧
    (∀ i n e, extract_field script "id" = .ok i → extract_field script "name" = .ok n →
      extract_field script "version" = .error e → extract_metadata script = .error e) ∧
    (∀ i n v, extract_field script "id" = .ok i → extract_field script "name" = .ok n →
      extract_field script "version" = .ok v →
      extract_field script "description" = .error (field_error_msg "description") →
      extract_metadata script = .ok { id := i, name := n, version := v, description := "" }) := by
  refine ⟨?_, ?_, ?_, ?_⟩
  · intro e h
    unfold extract_metadata
    rw [h]
  · intro i e hi h
    unfold extract_metadata
    rw [hi]
    simp only [h]
  · intro i n e hi hn h
    unfold extract_metadata
    rw [hi]
    simp only [hn, h]
  · intro i n v hi hn hv hd
    unfold extract_metadata
    rw [hi]
    simp only [hn, hv, hd]

/-- Witness for claim C8: a script without `id` is rejected with the source
error message, and a script carrying only the three required fields yields
an empty description. -/
theorem extract_metadata_required_fields_witness :
    extract_metadata scriptNoId = .error (field_error_msg "id") ∧
    extract_metadata scriptNoDesc =
      .ok { id := "m", name := "N", version := "1.0", description := "" } := by
  constructor
  · exact (extract_metadata_required_fields scriptNoId).1 (field_error_msg "id") (by decide)
  · exact (extract_metadata_required_fields scriptNoDesc).2.2.2 "m" "N" "1.0"
      (by decide) (by decide) (by decide) (by decide)

/-- Claim C9.  At the script interface `storage.get` returns `null` both
when the key was never set and when the stored value is the empty string:
the native primitive collapses a missing database, a failed query and a
missing row to the empty string, and the script-side wrapper maps the empty
string to `null`, so a stored empty string is indistinguishable from an
absent key. -/
theorem storage_get_empty_indistinguishable (db : PropDb) (module_id key : String)
    (now : Int) :
    native_storage_get_sync none module_id key = "" ∧
    storage_get none module_id key = none ∧
    (db (create_id module_id key) = none →
      native_storage_get_sync (some db) module_id key = "" ∧
      storage_get (some db) module_id key = none) ∧
    (native_storage_get_sync
        (native_storage_set_sync (some db) module_id key "" now).2 module_id key = "" ∧
     storage_get
        (native_storage_set_sync (some db) module_id key "" now).2 module_id key = none) := by
  refine ⟨rfl, rfl, ?_, ?_⟩
  · intro h
    constructor
    · unfold native_storage_get_sync
      simp [h]
    · unfold storage_get native_storage_get_sync
      simp [h]
  · unfold native_storage_set_sync storage_get native_storage_get_sync
    cases hd : db (create_id module_id key) <;> simp [hd]

/-- Witness for claim C9 on the empty table: a never-set key reads as
`null`, and after storing the empty string the key still reads as
`null`. -/
theorem storage_get_empty_indistinguishable_witness :
    ((fun _ => none : PropDb) (create_id "A" "k") = none) ∧
    (native_storage_get_sync (some (fun _ => none)) "A" "k" = "" ∧
     storage_get (some (fun _ => none)) "A" "k" = none) ∧
    (native_storage_get_sync
        (native_storage_set_sync (some (fun _ => none)) "A" "k" "" 0).2 "A" "k" = "" ∧
     storage_get
        (native_storage_set_sync (some (fun _ => none)) "A" "k" "" 0).2 "A" "k" = none) :=
  ⟨rfl,
   (storage_get_empty_indistinguishable (fun _ => none) "A" "k" 0).2.2.1 rfl,
   (storage_get_empty_indistinguishable (fun _ => none) "A" "k" 0).2.2.2⟩

/-- Claim C10.  The `crypto.base64Decode` and `crypto.hexDecode` bindings
are total at the script interface: they always hand a string back and never
raise; input that is not valid base64 or hex — and, for base64, input whose
decoded bytes are not valid UTF-8 — yields the empty string, while valid
input yields the genuine decoding (lossily converted for hex). -/
theorem crypto_decode_total (s : List Char) :
    (base64_decode s = none → cryptoBase64Decode s = []) ∧
    (∀ bs, base64_decode s = some bs → utf8Decode bs = none → cryptoBase64Decode s = []) ∧
    (∀ bs cs, base64_decode s = some bs → utf8Decode bs = some cs → cryptoBase64Decode s = cs) ∧
    (hex_decode s = none → cryptoHexDecode s = []) ∧
    (∀ bs, hex_decode s = some bs → cryptoHexDecode s = utf8Lossy bs) := by
  refine ⟨?_, ?_, ?_, ?_, ?_⟩
  · intro h
    unfold cryptoBase64Decode base64_decode_string
    rw [h]
  · intro bs hb hu
    unfold cryptoBase64Decode base64_decode_string
    rw [hb]
    simp only [hu]
  · intro bs cs hb hu
    unfold cryptoBase64Decode base64_decode_string
    rw [hb]
    simp only [hu]
  · intro h
    unfold cryptoHexDecode
    rw [h]
  · intro bs h
    unfold cryptoHexDecode
    rw [h]

/-- Witness for claim C10: an invalid base64 text, a base64 text decoding to
a non-UTF-8 byte, a valid base64 text, an invalid hex text and a valid hex
text of a non-UTF-8 byte, all behaving as claimed. -/
theorem crypto_decode_total_witness :
    cryptoBase64Decode "****".data = [] ∧
    cryptoBase64Decode "/w==".data = [] ∧
    cryptoBase64Decode "aGVsbG8=".data = "hello".data ∧
    cryptoHexDecode "zz".data = [] ∧
    cryptoHexDecode "ff".data = utf8Lossy [255] :=
  ⟨(crypto_decode_total "****".data).1 (by decide),
   (crypto_decode_total "/w==".data).2.1 [255] (by decide) (by decide),
   (crypto_decode_total "aGVsbG8=".data).2.2.1 [104, 101, 108, 108, 111] "hello".data
     (by decide) (by decide),
   (crypto_decode_total "zz".data).2.2.2.1 (by decide),
   (crypto_decode_total "ff".data).2.2.2.2 [255] (by decide)⟩

end Comics
